import Mathlib

/-!
Shallow embedding of
`src/magentic_ui/tools/playwright/browser/local_playwright_browser.py`:
the `LocalPlaywrightBrowserConfig` pydantic model and the
`LocalPlaywrightBrowser` session lifecycle adapter.

External Playwright objects (the driver, the browser, the contexts) are
opaque handles; the external world is an `Env` record supplying the result
of each capability call. Side effects on external resources are recorded
as an explicit list of `Event`s, so that "never closes the browser" and
"connects exactly once" are statable.
-/

namespace Magentic

/-- Opaque handle to the started Playwright driver object. -/
abbrev PlaywrightHandle := Nat

/-- Opaque handle to a (remote) browser object. -/
abbrev BrowserHandle := Nat

/-- Opaque handle to a browser context object. -/
abbrev ContextHandle := Nat

/-- A Python exception value raised by the Playwright library
(e.g. a CDP connection failure). -/
structure PyException where
  msg : String
deriving DecidableEq, Repr

/-- `RuntimeError` raised by the `browser_context` property when
`self._context is None` ("Browser context is not initialized."). -/
inductive RuntimeError where
  | notStarted
deriving DecidableEq, Repr

/-- `ConfigError`: the construction-time validation failure named by the
spec. The source constructor has no raise statement, so the embedded
constructor is typed with this error but never produces it. -/
inductive ConfigError where
  | invalidConfig
deriving DecidableEq, Repr

/-- Observable calls the adapter makes on external Playwright resources. -/
inductive Event where
  | playwright_start
  | connect_cdp (url : String)
  | new_context (browser : BrowserHandle)
  | playwright_stop
  | browser_close (browser : BrowserHandle)
  | context_close (ctx : ContextHandle)
deriving DecidableEq, Repr

/-- The external world as seen by one `_start`/`_close` run: the driver
handle `async_playwright().start()` yields, the outcome of
`chromium.connect_over_cdp` (on success, the browser handle together with
its `contexts` list), and the context `new_context` would create. -/
structure Env where
  playwright : PlaywrightHandle
  connect_over_cdp : String → Except PyException (BrowserHandle × List ContextHandle)
  new_context : BrowserHandle → ContextHandle

/-- `LocalPlaywrightBrowserConfig`: the five pydantic fields. -/
structure LocalPlaywrightBrowserConfig where
  headless : Bool
  browser_channel : Option String := none
  enable_downloads : Bool := false
  persistent_context : Bool := false
  browser_data_dir : Option String := none
deriving DecidableEq, Repr

/-- `LocalPlaywrightBrowserConfig.requires_persistent_context`:
`self.persistent_context and self.browser_data_dir is not None`. -/
def LocalPlaywrightBrowserConfig.requires_persistent_context
    (self : LocalPlaywrightBrowserConfig) : Bool :=
  self.persistent_context && self.browser_data_dir.isSome

/-- The instance attributes of `LocalPlaywrightBrowser`: the five
configuration fields copied by `__init__` plus the three optional
resource handles. -/
structure LocalPlaywrightBrowser where
  _headless : Bool
  _browser_channel : Option String
  _enable_downloads : Bool
  _persistent_context : Bool
  _browser_data_dir : Option String
  _playwright : Option PlaywrightHandle
  _browser : Option BrowserHandle
  _context : Option ContextHandle
deriving DecidableEq, Repr

/-- `LocalPlaywrightBrowser.__init__`: copies the five arguments and sets
the three handles to `None`. It performs no validation and contains no
raise statement; the `Except ConfigError` result type records that a
Python constructor may raise, and this one never does. -/
def LocalPlaywrightBrowser.init (headless : Bool) (browser_channel : Option String)
    (enable_downloads : Bool) (persistent_context : Bool)
    (browser_data_dir : Option String) :
    Except ConfigError LocalPlaywrightBrowser :=
  Except.ok
    { _headless := headless
      _browser_channel := browser_channel
      _enable_downloads := enable_downloads
      _persistent_context := persistent_context
      _browser_data_dir := browser_data_dir
      _playwright := none
      _browser := none
      _context := none }

/-- `LocalPlaywrightBrowser._start`: starts the Playwright driver (stored in
`self._playwright` before the connection attempt), then connects over CDP to
the fixed endpoint `http://localhost:9222`. On success it stores the browser
handle and uses the browser's first existing context if any, otherwise
creates a new context. On connection failure it re-raises the underlying
exception (`raise e`). Returns the updated object, the emitted events, and
the Python-level outcome. -/
def LocalPlaywrightBrowser._start (self : LocalPlaywrightBrowser) (env : Env) :
    LocalPlaywrightBrowser × List Event × Except PyException Unit :=
  match env.connect_over_cdp "http://localhost:9222" with
  | Except.error e =>
      ({ self with _playwright := some env.playwright },
       [Event.playwright_start, Event.connect_cdp "http://localhost:9222"],
       Except.error e)
  | Except.ok (b, ctxs) =>
      match ctxs with
      | c :: _ =>
          ({ self with
              _playwright := some env.playwright
              _browser := some b
              _context := some c },
           [Event.playwright_start, Event.connect_cdp "http://localhost:9222"],
           Except.ok ())
      | [] =>
          ({ self with
              _playwright := some env.playwright
              _browser := some b
              _context := some (env.new_context b) },
           [Event.playwright_start, Event.connect_cdp "http://localhost:9222",
            Event.new_context b],
           Except.ok ())

/-- `LocalPlaywrightBrowser._close`: `if self._playwright: await
self._playwright.stop()`. No other statement: the browser and the context
are deliberately left untouched, and none of the attributes is cleared. -/
def LocalPlaywrightBrowser._close (self : LocalPlaywrightBrowser) :
    LocalPlaywrightBrowser × List Event :=
  match self._playwright with
  | some _ => (self, [Event.playwright_stop])
  | none => (self, [])

/-- `LocalPlaywrightBrowser.browser_context` property: raises
`RuntimeError` when `self._context is None`, otherwise returns the stored
context handle. -/
def LocalPlaywrightBrowser.browser_context (self : LocalPlaywrightBrowser) :
    Except RuntimeError ContextHandle :=
  match self._context with
  | none => Except.error RuntimeError.notStarted
  | some c => Except.ok c

/-- `LocalPlaywrightBrowser._to_config`: rebuilds the config from the five
stored fields. -/
def LocalPlaywrightBrowser._to_config (self : LocalPlaywrightBrowser) :
    LocalPlaywrightBrowserConfig :=
  { headless := self._headless
    browser_channel := self._browser_channel
    enable_downloads := self._enable_downloads
    persistent_context := self._persistent_context
    browser_data_dir := self._browser_data_dir }

/-- `LocalPlaywrightBrowser._from_config`: `cls(...)` with the five config
fields. -/
def LocalPlaywrightBrowser._from_config (config : LocalPlaywrightBrowserConfig) :
    Except ConfigError LocalPlaywrightBrowser :=
  LocalPlaywrightBrowser.init config.headless config.browser_channel
    config.enable_downloads config.persistent_context config.browser_data_dir

/-- A browser object as freshly constructed from a config: the five fields
copied, the three handles `None`. -/
def ofConfig (c : LocalPlaywrightBrowserConfig) : LocalPlaywrightBrowser :=
  { _headless := c.headless
    _browser_channel := c.browser_channel
    _enable_downloads := c.enable_downloads
    _persistent_context := c.persistent_context
    _browser_data_dir := c.browser_data_dir
    _playwright := none
    _browser := none
    _context := none }

/-- Modelled from the spec: the lifecycle phase of the session manager.
The base class `PlaywrightBrowser` (`base_playwright_browser.py`) is
referenced by the source but absent from the tree; the spec gives the
phases `Unstarted → Starting → Active → Closed`, with a `Failed` phase
after a failed start permitted as implementer's choice. -/
inductive Phase where
  | Unstarted
  | Starting
  | Active
  | Closed
  | Failed
deriving DecidableEq, Repr

/-- Errors the lifecycle `start` operation can produce: `InvalidStateError`
for a start in the wrong phase, or the attach failure carrying the
underlying Playwright exception as its cause. -/
inductive StartError where
  | invalidState
  | attach (cause : PyException)
deriving DecidableEq, Repr

/-- Modelled from the spec: a session is the missing base-class lifecycle
state (the phase) together with the `LocalPlaywrightBrowser` instance
state. -/
structure Session where
  phase : Phase
  inner : LocalPlaywrightBrowser
deriving DecidableEq, Repr

/-- Modelled from the spec: the base-class `start` operation. Calling
`start` while `Active` or `Starting` fails with `InvalidStateError` and
touches nothing; otherwise it runs the subclass `_start`, moving to
`Active` on success and to `Failed` on an attach failure (which it
surfaces, wrapped as the cause of the attach error). -/
def Session.start (s : Session) (env : Env) :
    Session × List Event × Except StartError Unit :=
  match s.phase with
  | Phase.Active => (s, [], Except.error StartError.invalidState)
  | Phase.Starting => (s, [], Except.error StartError.invalidState)
  | _ =>
      match s.inner._start env with
      | (inner1, evs, Except.ok _) =>
          ({ phase := Phase.Active, inner := inner1 }, evs, Except.ok ())
      | (inner1, evs, Except.error e) =>
          ({ phase := Phase.Failed, inner := inner1 }, evs,
           Except.error (StartError.attach e))

/-- Modelled from the spec: the base-class `close` operation. Safe from any
phase: a no-op when already `Closed` or `Unstarted` (nothing was acquired),
otherwise it runs the subclass `_close`; the phase becomes `Closed`. -/
def Session.close (s : Session) : Session × List Event :=
  match s.phase with
  | Phase.Closed => (s, [])
  | Phase.Unstarted => ({ s with phase := Phase.Closed }, [])
  | _ =>
      ({ phase := Phase.Closed, inner := (s.inner._close).1 },
       (s.inner._close).2)

/-- Predicate picking out CDP connection events, to count connection
attempts. -/
def Event.isConnect : Event → Bool
  | Event.connect_cdp _ => true
  | _ => false

/-- A freshly constructed browser with default arguments. -/
def freshBrowser : LocalPlaywrightBrowser :=
  { _headless := false
    _browser_channel := none
    _enable_downloads := false
    _persistent_context := false
    _browser_data_dir := none
    _playwright := none
    _browser := none
    _context := none }

/-- An environment whose CDP endpoint is reachable and whose browser
already has one context (handle 5). -/
def envOk : Env :=
  { playwright := 1
    connect_over_cdp := fun _ => Except.ok (2, [5])
    new_context := fun b => b + 10 }

/-- An environment whose CDP endpoint is reachable but whose browser has
no existing context. -/
def envEmpty : Env :=
  { playwright := 1
    connect_over_cdp := fun _ => Except.ok (2, [])
    new_context := fun b => b + 10 }

/-- An environment whose CDP endpoint refuses the connection. -/
def envFail : Env :=
  { playwright := 1
    connect_over_cdp := fun _ => Except.error { msg := "ECONNREFUSED" }
    new_context := fun b => b + 10 }

/-- A session that completed a successful start against `envOk`. -/
def activeSession : Session :=
  { phase := Phase.Active
    inner :=
      { freshBrowser with
          _playwright := some 1
          _browser := some 2
          _context := some 5 } }

/-- A sample fully populated configuration. -/
def sampleConfig : LocalPlaywrightBrowserConfig :=
  { headless := true
    browser_channel := some "chrome"
    enable_downloads := true
    persistent_context := true
    browser_data_dir := some "./browser_data" }

/-- Helper: the spec-modelled `close` always leaves the phase `Closed`. -/
theorem Session.close_phase (s : Session) : ((s.close).1).phase = Phase.Closed := by
  cases hp : s.phase <;> simp [Session.close, hp]

/-- Helper: the spec-modelled `close` on an already-`Closed` session is a
no-op. -/
theorem Session.close_closed_noop (s : Session) (hs : s.phase = Phase.Closed) :
    s.close = (s, []) := by
  simp [Session.close, hs]

/-- C1: releasing a session releases only driver-side resources — `_close`
stops the Playwright driver when one was acquired and invokes no close or
terminate operation on the browser handle or the context handle. -/
theorem close_releases_only_driver (self : LocalPlaywrightBrowser) :
    (self._close).2 =
      (if self._playwright.isSome then [Event.playwright_stop] else []) ∧
    (∀ b, Event.browser_close b ∉ (self._close).2) ∧
    (∀ c, Event.context_close c ∉ (self._close).2) := by
  cases h : self._playwright <;>
    simp [LocalPlaywrightBrowser._close, h]

/-- C1 witness at a started session: its close emits no browser-close and
no context-close event. -/
theorem close_releases_only_driver_witness :
    Event.browser_close 2 ∉ (activeSession.inner._close).2 ∧
    Event.context_close 5 ∉ (activeSession.inner._close).2 :=
  ⟨(close_releases_only_driver activeSession.inner).2.1 2,
   (close_releases_only_driver activeSession.inner).2.2 5⟩

/-- C2 counterexample: after a successful start against `envOk` followed by
`_close`, the accessor still returns the stale context handle 5 instead of
failing. -/
theorem browser_context_stale_after_close :
    ((((freshBrowser._start envOk).1)._close).1).browser_context =
      Except.ok 5 := by
  rfl

/-- C2 amended: the accessor fails (with `RuntimeError`) exactly when no
context handle is recorded, which holds before any successful start — for a
freshly constructed browser and still after a failed start; but `_close`
leaves the object entirely unchanged, so after a successful start followed
by close the accessor still returns the stale handle rather than failing. -/
theorem browser_context_fails_iff_no_context (self : LocalPlaywrightBrowser) :
    (self.browser_context = Except.error RuntimeError.notStarted ↔
      self._context = none) ∧
    (self._close).1 = self ∧
    freshBrowser.browser_context = Except.error RuntimeError.notStarted ∧
    ((freshBrowser._start envFail).1).browser_context =
      Except.error RuntimeError.notStarted := by
  refine ⟨?_, ?_, rfl, rfl⟩
  · cases h : self._context <;>
      simp [LocalPlaywrightBrowser.browser_context, h]
  · cases h : self._playwright <;>
      simp [LocalPlaywrightBrowser._close, h]

/-- C2 amended witness: the accessor of a fresh browser fails, and close of
a started browser changes nothing. -/
theorem browser_context_fails_iff_no_context_witness :
    freshBrowser.browser_context = Except.error RuntimeError.notStarted ∧
    (activeSession.inner._close).1 = activeSession.inner :=
  ⟨(browser_context_fails_iff_no_context freshBrowser).2.2.1,
   (browser_context_fails_iff_no_context activeSession.inner).2.1⟩

/-- C3 counterexample: constructing with `persistent_context = true` and
`browser_data_dir` absent succeeds and returns the instance — no
`ConfigError` is raised at construction. -/
theorem init_accepts_persistent_without_dir :
    LocalPlaywrightBrowser.init false none false true none =
      Except.ok
        { _headless := false
          _browser_channel := none
          _enable_downloads := false
          _persistent_context := true
          _browser_data_dir := none
          _playwright := none
          _browser := none
          _context := none } := by
  rfl

/-- C3 amended: construction never fails — `__init__` performs no
validation, so every argument combination (including `persistent_context`
true with `browser_data_dir` empty or absent) yields an instance and no
`ConfigError`. No downgrade happens for an empty-string data dir: only an
absent (`None`) data dir makes the derived `requires_persistent_context`
false, while an empty-string data dir counts as present, leaving it equal
to `persistent_context`. -/
theorem init_never_fails (hl : Bool) (ch : Option String) (dl : Bool)
    (p : Bool) (dir : Option String) :
    LocalPlaywrightBrowser.init hl ch dl p dir =
      Except.ok
        { _headless := hl
          _browser_channel := ch
          _enable_downloads := dl
          _persistent_context := p
          _browser_data_dir := dir
          _playwright := none
          _browser := none
          _context := none } ∧
    (LocalPlaywrightBrowserConfig.mk hl ch dl p none).requires_persistent_context
      = false ∧
    (LocalPlaywrightBrowserConfig.mk hl ch dl p
        (some "")).requires_persistent_context = p := by
  refine ⟨rfl, ?_, ?_⟩ <;>
    simp [LocalPlaywrightBrowserConfig.requires_persistent_context]

/-- C3 amended witness at a concrete inconsistent configuration: absent
data dir gives false, empty-string data dir gives true. -/
theorem init_never_fails_witness :
    LocalPlaywrightBrowser.init true (some "chrome") false true none =
      Except.ok
        { _headless := true
          _browser_channel := some "chrome"
          _enable_downloads := false
          _persistent_context := true
          _browser_data_dir := none
          _playwright := none
          _browser := none
          _context := none } ∧
    (LocalPlaywrightBrowserConfig.mk true (some "chrome") false true
        none).requires_persistent_context = false ∧
    (LocalPlaywrightBrowserConfig.mk true (some "chrome") false true
        (some "")).requires_persistent_context = true :=
  init_never_fails true (some "chrome") false true none

/-- C8: `requires_persistent_context` is true iff `persistent_context` is
true and `browser_data_dir` is present; with the data dir absent it is
false regardless of `persistent_context`. -/
theorem requires_persistent_context_iff (c : LocalPlaywrightBrowserConfig) :
    (c.requires_persistent_context = true ↔
      c.persistent_context = true ∧ c.browser_data_dir.isSome = true) ∧
    ({ c with browser_data_dir := none } :
        LocalPlaywrightBrowserConfig).requires_persistent_context = false := by
  constructor
  · simp [LocalPlaywrightBrowserConfig.requires_persistent_context]
  · simp [LocalPlaywrightBrowserConfig.requires_persistent_context]

/-- C8 witness: the sample config engages persistent semantics, and the
same config with the data dir removed does not. -/
theorem requires_persistent_context_iff_witness :
    sampleConfig.requires_persistent_context = true ∧
    ({ sampleConfig with browser_data_dir := none } :
        LocalPlaywrightBrowserConfig).requires_persistent_context = false :=
  ⟨(requires_persistent_context_iff sampleConfig).1.mpr ⟨rfl, rfl⟩,
   (requires_persistent_context_iff sampleConfig).2⟩

/-- C10: configuration round-trip — building a browser from a config with
`_from_config` and converting it back with `_to_config` yields the same
config, all five fields preserved. -/
theorem to_config_from_config_roundtrip (c : LocalPlaywrightBrowserConfig) :
    Except.map LocalPlaywrightBrowser._to_config
      (LocalPlaywrightBrowser._from_config c) = Except.ok c := by
  cases c
  rfl

/-- C10 witness at the sample config. -/
theorem to_config_from_config_roundtrip_witness :
    Except.map LocalPlaywrightBrowser._to_config
      (LocalPlaywrightBrowser._from_config sampleConfig) =
      Except.ok sampleConfig :=
  to_config_from_config_roundtrip sampleConfig

/-- C4: spec-modelled base dispatch — a second `start` while the session is
`Active` or `Starting` fails with `InvalidStateError`, performs no external
action (no reconnection), and leaves the session, hence the first start's
context accessor, unchanged. -/
theorem start_twice_invalid_state (s : Session) (env : Env)
    (hph : s.phase = Phase.Active ∨ s.phase = Phase.Starting) :
    (s.start env).2.2 = Except.error StartError.invalidState ∧
    (s.start env).2.1 = [] ∧
    (s.start env).1 = s ∧
    ((s.start env).1).inner.browser_context = s.inner.browser_context := by
  rcases hph with h | h <;> simp [Session.start, h]

/-- C4 witness: starting the already-active session again fails with
`InvalidStateError` and leaves it unchanged. -/
theorem start_twice_invalid_state_witness :
    (activeSession.start envOk).2.2 = Except.error StartError.invalidState ∧
    (activeSession.start envOk).2.1 = [] ∧
    (activeSession.start envOk).1 = activeSession ∧
    ((activeSession.start envOk).1).inner.browser_context =
      activeSession.inner.browser_context :=
  start_twice_invalid_state activeSession envOk (Or.inl rfl)

/-- C5: on a successful CDP connection, `_start` succeeds, selects the
browser's first existing context when one exists and otherwise the newly
created context, stores exactly that one handle, and the accessor returns
it. -/
theorem start_selects_context (self : LocalPlaywrightBrowser) (env : Env)
    (b : BrowserHandle) (ctxs : List ContextHandle)
    (hconn : env.connect_over_cdp "http://localhost:9222" =
      Except.ok (b, ctxs)) :
    (self._start env).2.2 = Except.ok () ∧
    ((self._start env).1)._context = some (ctxs.headD (env.new_context b)) ∧
    ((self._start env).1).browser_context =
      Except.ok (ctxs.headD (env.new_context b)) := by
  cases ctxs <;>
    simp [LocalPlaywrightBrowser._start, hconn,
      LocalPlaywrightBrowser.browser_context]

/-- C5 witness: with an existing context the accessor returns it (handle
5); with none, the freshly created context (handle 12) is returned. -/
theorem start_selects_context_witness :
    ((freshBrowser._start envOk).1).browser_context = Except.ok 5 ∧
    ((freshBrowser._start envEmpty).1).browser_context = Except.ok 12 :=
  ⟨(start_selects_context freshBrowser envOk 2 [5] rfl).2.2,
   (start_selects_context freshBrowser envEmpty 2 [] rfl).2.2⟩

/-- C6: when the CDP connection fails, `_start` fails with exactly the
underlying exception as its cause (re-raised, never swallowed), and the
event trace shows a single connection attempt — no retry inside the
manager. -/
theorem start_attach_failure_propagates (self : LocalPlaywrightBrowser)
    (env : Env) (e : PyException)
    (hconn : env.connect_over_cdp "http://localhost:9222" =
      Except.error e) :
    (self._start env).2.2 = Except.error e ∧
    (self._start env).2.1 =
      [Event.playwright_start, Event.connect_cdp "http://localhost:9222"] ∧
    List.countP (fun ev => Event.isConnect ev) ((self._start env).2.1) = 1 := by
  simp [LocalPlaywrightBrowser._start, hconn, Event.isConnect,
    List.countP_cons]

/-- C6 witness at the refusing endpoint: the refusal is re-raised and
exactly one connection attempt appears in the trace. -/
theorem start_attach_failure_propagates_witness :
    (freshBrowser._start envFail).2.2 =
      Except.error { msg := "ECONNREFUSED" } ∧
    (freshBrowser._start envFail).2.1 =
      [Event.playwright_start, Event.connect_cdp "http://localhost:9222"] ∧
    List.countP (fun ev => Event.isConnect ev)
      ((freshBrowser._start envFail).2.1) = 1 :=
  start_attach_failure_propagates freshBrowser envFail
    { msg := "ECONNREFUSED" } rfl

/-- C7: close is safe in every phase (spec-modelled base dispatch): before
start it is an error-free no-op (no driver was acquired); any close leaves
the phase `Closed` and a second close performs nothing; and after a start
that acquired the driver but failed to attach, close still releases the
acquired driver handle. -/
theorem close_safe_every_phase (s : Session) (env : Env) (e : PyException)
    (hconn : env.connect_over_cdp "http://localhost:9222" =
      Except.error e) :
    (Session.close { phase := Phase.Unstarted, inner := freshBrowser }).2
      = [] ∧
    ((s.close).1).phase = Phase.Closed ∧
    (((s.close).1).close).2 = [] ∧
    (Session.close
        ((Session.start { phase := Phase.Unstarted, inner := freshBrowser }
          env).1)).2 = [Event.playwright_stop] := by
  refine ⟨by simp [Session.close], Session.close_phase s, ?_, ?_⟩
  · have h2 := Session.close_closed_noop ((s.close).1) (Session.close_phase s)
    simp [h2]
  · simp [Session.start, Session.close, LocalPlaywrightBrowser._start,
      LocalPlaywrightBrowser._close, hconn]

/-- C7 witness at the active session and the refusing endpoint. -/
theorem close_safe_every_phase_witness :
    (Session.close { phase := Phase.Unstarted, inner := freshBrowser }).2
      = [] ∧
    ((activeSession.close).1).phase = Phase.Closed ∧
    (((activeSession.close).1).close).2 = [] ∧
    (Session.close
        ((Session.start { phase := Phase.Unstarted, inner := freshBrowser }
          envFail).1)).2 = [Event.playwright_stop] :=
  close_safe_every_phase activeSession envFail { msg := "ECONNREFUSED" } rfl

/-- C9: start noninterference — no configuration field influences `_start`:
for any two configurations, freshly constructed browsers produce the same
events, the same outcome and the same resource handles, and the only
connection event in the trace targets the fixed endpoint
`http://localhost:9222`. -/
theorem start_ignores_config (env : Env)
    (c1 c2 : LocalPlaywrightBrowserConfig) :
    ((ofConfig c1)._start env).2 = ((ofConfig c2)._start env).2 ∧
    (((ofConfig c1)._start env).1)._playwright =
      (((ofConfig c2)._start env).1)._playwright ∧
    (((ofConfig c1)._start env).1)._browser =
      (((ofConfig c2)._start env).1)._browser ∧
    (((ofConfig c1)._start env).1)._context =
      (((ofConfig c2)._start env).1)._context ∧
    List.filter (fun ev => Event.isConnect ev)
        (((ofConfig c1)._start env).2.1) =
      [Event.connect_cdp "http://localhost:9222"] := by
  cases hconn : env.connect_over_cdp "http://localhost:9222" with
  | error e =>
      simp [LocalPlaywrightBrowser._start, hconn, ofConfig, Event.isConnect]
  | ok p =>
      obtain ⟨b, ctxs⟩ := p
      cases ctxs <;>
        simp [LocalPlaywrightBrowser._start, hconn, ofConfig,
          Event.isConnect]

/-- C9 witness: two different configurations produce identical start
events and outcome, connecting only to the fixed endpoint. -/
theorem start_ignores_config_witness :
    ((ofConfig sampleConfig)._start envOk).2 =
      ((ofConfig { headless := false })._start envOk).2 ∧
    List.filter (fun ev => Event.isConnect ev)
        (((ofConfig sampleConfig)._start envOk).2.1) =
      [Event.connect_cdp "http://localhost:9222"] :=
  ⟨(start_ignores_config envOk sampleConfig { headless := false }).1,
   (start_ignores_config envOk sampleConfig
      { headless := false }).2.2.2.2⟩

end Magentic
